import Mathlib

/-!
Shallow embedding of the synthetic FX-order record generator
(`sample-data/generate_sample_data.py`).

Modelling conventions:
* Each call to the process-wide random source becomes an explicit parameter
  of the function that performs it.  The range constraint that the Python
  random primitive guarantees (`random.randint(a, b)` returns an integer in
  `[a, b]`, `random.choices(pop, weights)` returns an element of `pop`,
  `random.sample(pop, 2)` returns two distinct elements, `random.uniform(a, b)`
  returns a real in `[a, b]`) becomes a validity hypothesis (`ValidDraws`).
  Weighted choices are modelled by an index into the category list: with the
  given configuration every weight is positive, so every index is reachable.
* Python real arithmetic is modelled over `ℚ` (exact real arithmetic);
  `round(x, 7)` is `roundTo7`, and `int(x)` is `pyTrunc` (truncation toward
  zero).
* `datetime` values are modelled as integer day numbers; `datetime.now()` is
  the injected parameter `today`.  Subtracting/adding `timedelta(days=k)`
  shifts the day number by `k`, matching the `%Y-%m-%d` date that the script
  stores.  The two `datetime.now()` calls inside one record generation are
  microseconds apart, so `(datetime.now() - creation_date).days` evaluates to
  `days_ago`; both calls are modelled by the single `today`.
* Python strings used as record fields are `String`; the reference string,
  which is concatenated character by character, is a `List Char`.
-/

/-- `CURRENCIES` from the script. -/
def CURRENCIES : List String := ["EUR", "USD", "CHF", "GBP", "DKK", "SEK", "NOK", "JPY"]

/-- `EXCHANGE_RATES`: the static table, as a partial map on currency codes
(approximate values vs EUR, exact rationals). -/
def EXCHANGE_RATES (c : String) : Option ℚ :=
  if c = "EUR" then some 1
  else if c = "USD" then some (105/100)
  else if c = "CHF" then some (94/100)
  else if c = "GBP" then some (86/100)
  else if c = "DKK" then some (746/100)
  else if c = "SEK" then some (1120/100)
  else if c = "NOK" then some (1180/100)
  else if c = "JPY" then some 162
  else none

/-- `EXCHANGE_RATES.get(c, 1.0)`: table lookup defaulting to `1.0`. -/
def ratesGet (c : String) : ℚ := (EXCHANGE_RATES c).getD 1

/-- `FX_ORDER_TYPES` from the script. -/
def FX_ORDER_TYPES : List String := ["forward", "chain", "spot"]

/-- `MARKET_DIRECTIONS` from the script. -/
def MARKET_DIRECTIONS : List String := ["buy", "sell"]

/-- `STATUSES` from the script. -/
def STATUSES : List String := ["open", "closed_to_trading", "completed"]

/-- `LIQUIDITY_PROVIDERS` from the script. -/
def LIQUIDITY_PROVIDERS : List String := ["SIVB", "RBS", "SEB", "BARC", "CITI", "HSBC"]

/-- `string.ascii_uppercase + string.digits`: the 36-character alphabet
`random.choices` draws the reference suffix from. -/
def REF_ALPHABET : List Char :=
  ("ABCDEFGHIJKLMNOPQRSTUVWXYZ" ++ "0123456789").toList

/-- Python `round(x, 7)`: round to 7 decimal places. -/
def roundTo7 (x : ℚ) : ℚ := (round (x * 10^7) : ℤ) / 10^7

/-- Python `int(x)`: truncation toward zero. -/
def pyTrunc (x : ℚ) : ℤ := if 0 ≤ x then ⌊x⌋ else ⌈x⌉

/-- `generate_reference(order_type)`.  `suffix` is the list of characters
produced by `random.choices(string.ascii_uppercase + string.digits, k=8)`;
validity requires it to be 8 characters drawn from `REF_ALPHABET` (modelled
below by 8 indices `< 36`). -/
def generate_reference (order_type : String) (suffix : List Char) : List Char :=
  if order_type = "chain" then
    ['K', 'C', 'H', '-'] ++ suffix
  else
    ['K', '-'] ++ suffix

/-- `generate_rate(buy_currency, sell_currency)`.  `variation` is the draw
`random.uniform(-0.02, 0.02)`. -/
def generate_rate (buy_currency sell_currency : String) (variation : ℚ) : ℚ :=
  if buy_currency = sell_currency then 1
  else
    let buy_rate := ratesGet buy_currency
    let sell_rate := ratesGet sell_currency
    let base_rate := sell_rate / buy_rate
    roundTo7 (base_rate * (1 + variation))

/-- The `randint` bounds of `generate_amount_cents` for each size tier, as
written in the script (`randint(100_00, 50_000_00)` etc.). -/
def amountDrawRange (size_type : String) : ℕ × ℕ :=
  if size_type = "small" then (10000, 5000000)
  else if size_type = "medium" then (5000000, 50000000)
  else if size_type = "large" then (50000000, 500000000)
  else (500000000, 10000000000)

/-- The tier list of `generate_amount_cents` (`random.choices` population). -/
def AMOUNT_TIERS : List String := ["small", "medium", "large", "very_large"]

/-- `generate_amount_cents()`: after the tier choice, every branch returns the
`randint` draw multiplied by 100.  `draw` is the `randint` result; validity
requires it to lie in `amountDrawRange size_type`. -/
def generate_amount_cents (size_type : String) (draw : ℕ) : ℕ :=
  if size_type = "small" then draw * 100
  else if size_type = "medium" then draw * 100
  else if size_type = "large" then draw * 100
  else draw * 100

/-- `generate_dates(status)`.  Returns `(creation_date, execution_date,
value_date)` as the script does.  `days_ago` is `randint(0, 365)`,
`value_date_offset` is `randint(1, 365)`, `exec_offset` is
`randint(0, max_exec_days)` (validity: `exec_offset ≤ days_ago`). -/
def generate_dates (today : ℤ) (status : String)
    (days_ago value_date_offset exec_offset : ℕ) : ℤ × Option ℤ × ℤ :=
  let creation_date := today - days_ago
  let value_date := creation_date + value_date_offset
  let execution_date :=
    if status ∈ ["closed_to_trading", "completed"] then
      let max_exec_days := min (days_ago : ℤ) (today - creation_date)
      if 0 < max_exec_days then some (creation_date + exec_offset) else none
    else none
  (creation_date, execution_date, value_date)

/-- `generate_currency_pair()`.  `eur_branch` models `random.random() < 0.7`,
`eur_first` models `random.random() < 0.5`; `other_idx` indexes
`random.choice` over the non-EUR currencies, and `(i1, i2)` (distinct, by
validity) index the two elements returned by `random.sample`. -/
def generate_currency_pair (eur_branch : Bool) (other_idx : ℕ) (eur_first : Bool)
    (i1 i2 : ℕ) : String × String :=
  if eur_branch then
    let other := (CURRENCIES.filter (fun c => c != "EUR")).getD other_idx ""
    if eur_first then ("EUR", other) else (other, "EUR")
  else
    ((CURRENCIES.filter (fun c => c != "EUR")).getD i1 "",
     (CURRENCIES.filter (fun c => c != "EUR")).getD i2 "")

/-- One generated order record (the dict returned by `generate_order`). -/
structure OrderRecord where
  id : List Char
  reference : List Char
  fx_order_type : String
  source : String
  creation_date : ℤ
  market_direction : String
  buy_amount_cents : ℕ
  sell_amount_cents : ℤ
  buy_currency : String
  sell_currency : String
  amount_cents : ℤ
  counter_amount_cents : ℤ
  currency : String
  counter_currency : String
  value_date : ℤ
  rate : ℚ
  liquidity_provider : String
  execution_date : Option ℤ
  status : String

/-- All random draws consumed by one `generate_order()` call, in source
order. -/
structure OrderDraws where
  orderTypeIdx : ℕ      -- random.choices(FX_ORDER_TYPES, weights)[0]
  refSuffix : List ℕ    -- random.choices(alphabet, k=8), as alphabet indices
  directionIdx : ℕ      -- random.choice(MARKET_DIRECTIONS)
  statusIdx : ℕ         -- random.choices(STATUSES, weights)[0]
  eurBranch : Bool      -- random.random() < 0.7
  otherIdx : ℕ          -- random.choice(non-EUR currencies)
  eurFirst : Bool       -- random.random() < 0.5
  sampleIdx1 : ℕ        -- random.sample(non-EUR, 2)[0]
  sampleIdx2 : ℕ        -- random.sample(non-EUR, 2)[1]
  variation : ℚ         -- random.uniform(-0.02, 0.02)
  tierIdx : ℕ           -- random.choices(tiers, weights)[0]
  amountDraw : ℕ        -- randint within the tier range
  daysAgo : ℕ           -- randint(0, 365)
  valueOffset : ℕ       -- randint(1, 365)
  execOffset : ℕ        -- randint(0, max_exec_days)
  lpIdx : ℕ             -- random.choice(LIQUIDITY_PROVIDERS)

/-- The range guarantees of the Python random primitives for one
`generate_order()` call. -/
def ValidDraws (d : OrderDraws) : Prop :=
  d.orderTypeIdx < 3 ∧
  d.refSuffix.length = 8 ∧
  (∀ i ∈ d.refSuffix, i < 36) ∧
  d.directionIdx < 2 ∧
  d.statusIdx < 3 ∧
  d.otherIdx < 7 ∧
  d.sampleIdx1 < 7 ∧
  d.sampleIdx2 < 7 ∧
  d.sampleIdx1 ≠ d.sampleIdx2 ∧
  -(2/100) ≤ d.variation ∧
  d.variation ≤ 2/100 ∧
  d.tierIdx < 4 ∧
  (amountDrawRange (AMOUNT_TIERS.getD d.tierIdx "")).1 ≤ d.amountDraw ∧
  d.amountDraw ≤ (amountDrawRange (AMOUNT_TIERS.getD d.tierIdx "")).2 ∧
  d.daysAgo ≤ 365 ∧
  1 ≤ d.valueOffset ∧
  d.valueOffset ≤ 365 ∧
  d.execOffset ≤ d.daysAgo ∧
  d.lpIdx < 6

instance (d : OrderDraws) : Decidable (ValidDraws d) := by
  unfold ValidDraws
  infer_instance

/-- Concrete draws used by the witnesses: a `closed_to_trading` record created
5 days ago. -/
def wDraws : OrderDraws :=
  { orderTypeIdx := 1, refSuffix := [0, 1, 2, 3, 4, 5, 6, 7], directionIdx := 0, statusIdx := 1,
    eurBranch := true, otherIdx := 0, eurFirst := true, sampleIdx1 := 0, sampleIdx2 := 1,
    variation := 0, tierIdx := 0, amountDraw := 10000, daysAgo := 5, valueOffset := 30,
    execOffset := 3, lpIdx := 0 }

/-- Draws refuting C3: `status = "completed"` with `daysAgo = 0`. -/
def c3Draws : OrderDraws :=
  { orderTypeIdx := 0, refSuffix := [0, 1, 2, 3, 4, 5, 6, 7], directionIdx := 0, statusIdx := 2,
    eurBranch := true, otherIdx := 0, eurFirst := true, sampleIdx1 := 0, sampleIdx2 := 1,
    variation := 0, tierIdx := 0, amountDraw := 10000, daysAgo := 0, valueOffset := 1,
    execOffset := 0, lpIdx := 0 }

/-- Draws refuting C1: buy USD, sell EUR with zero variation, so the
synthesized rate is `round(20/21, 7) = 0.952381`, and amount draw 10007, so
that `buyAmountCents * rate = 953047.6667`, where truncation and rounding
differ. -/
def c1Draws : OrderDraws :=
  { orderTypeIdx := 0, refSuffix := [0, 1, 2, 3, 4, 5, 6, 7], directionIdx := 0, statusIdx := 0,
    eurBranch := true, otherIdx := 0, eurFirst := false, sampleIdx1 := 0, sampleIdx2 := 1,
    variation := 0, tierIdx := 0, amountDraw := 10007, daysAgo := 5,
    valueOffset := 1, execOffset := 0, lpIdx := 0 }

/-- Draws exhibiting C2's divergence: a small-tier record whose `randint`
draw is the code's small-tier maximum `5_000_000` (= `50_000_00`). -/
def c2Draws : OrderDraws :=
  { orderTypeIdx := 0, refSuffix := [0, 1, 2, 3, 4, 5, 6, 7], directionIdx := 0, statusIdx := 0,
    eurBranch := true, otherIdx := 0, eurFirst := true, sampleIdx1 := 0, sampleIdx2 := 1,
    variation := 0, tierIdx := 0, amountDraw := 5000000, daysAgo := 5, valueOffset := 1,
    execOffset := 0, lpIdx := 0 }

/-- `generate_order()`: composes the sub-generators exactly as the script
does and assembles the returned dict. -/
def generate_order (today : ℤ) (d : OrderDraws) : OrderRecord :=
  let fx_order_type := FX_ORDER_TYPES.getD d.orderTypeIdx ""
  let reference :=
    generate_reference fx_order_type (d.refSuffix.map (fun i => REF_ALPHABET.getD i ' '))
  let market_direction := MARKET_DIRECTIONS.getD d.directionIdx ""
  let status := STATUSES.getD d.statusIdx ""
  let pair := generate_currency_pair d.eurBranch d.otherIdx d.eurFirst d.sampleIdx1 d.sampleIdx2
  let buy_currency := pair.1
  let sell_currency := pair.2
  let rate := generate_rate buy_currency sell_currency d.variation
  let buy_amount_cents := generate_amount_cents (AMOUNT_TIERS.getD d.tierIdx "") d.amountDraw
  let sell_amount_cents := pyTrunc ((buy_amount_cents : ℚ) * rate)
  let dates := generate_dates today status d.daysAgo d.valueOffset d.execOffset
  { id := reference
    reference := reference
    fx_order_type := fx_order_type
    source := "fx_order"
    creation_date := dates.1
    market_direction := market_direction
    buy_amount_cents := buy_amount_cents
    sell_amount_cents := sell_amount_cents
    buy_currency := buy_currency
    sell_currency := sell_currency
    amount_cents := if market_direction = "buy" then (buy_amount_cents : ℤ) else sell_amount_cents
    counter_amount_cents :=
      if market_direction = "buy" then sell_amount_cents else (buy_amount_cents : ℤ)
    currency := if market_direction = "buy" then buy_currency else sell_currency
    counter_currency := if market_direction = "buy" then sell_currency else buy_currency
    value_date := dates.2.2
    rate := rate
    liquidity_provider := LIQUIDITY_PROVIDERS.getD d.lpIdx ""
    execution_date := dates.2.1
    status := status }

/-! ### Helper lemmas -/

theorem order_creation_eq (today : ℤ) (d : OrderDraws) :
    (generate_order today d).creation_date = today - d.daysAgo := rfl

theorem order_value_eq (today : ℤ) (d : OrderDraws) :
    (generate_order today d).value_date = today - d.daysAgo + d.valueOffset := rfl

theorem order_status_eq (today : ℤ) (d : OrderDraws) :
    (generate_order today d).status = STATUSES.getD d.statusIdx "" := rfl

theorem order_execution_eq (today : ℤ) (d : OrderDraws) :
    (generate_order today d).execution_date =
      (generate_dates today (STATUSES.getD d.statusIdx "") d.daysAgo d.valueOffset
        d.execOffset).2.1 := rfl

theorem order_buyc_eq (today : ℤ) (d : OrderDraws) :
    (generate_order today d).buy_currency =
      (generate_currency_pair d.eurBranch d.otherIdx d.eurFirst d.sampleIdx1 d.sampleIdx2).1 := rfl

theorem order_sellc_eq (today : ℤ) (d : OrderDraws) :
    (generate_order today d).sell_currency =
      (generate_currency_pair d.eurBranch d.otherIdx d.eurFirst d.sampleIdx1 d.sampleIdx2).2 := rfl

theorem nonEur_ne_eur :
    ∀ i, i < 7 → (CURRENCIES.filter (fun c => c != "EUR")).getD i "" ≠ "EUR" := by
  decide

theorem nonEur_getD_inj :
    ∀ i, i < 7 → ∀ j, j < 7 → i ≠ j →
      (CURRENCIES.filter (fun c => c != "EUR")).getD i "" ≠
        (CURRENCIES.filter (fun c => c != "EUR")).getD j "" := by
  decide

theorem generate_currency_pair_ne (b : Bool) (o : ℕ) (f : Bool) (i1 i2 : ℕ)
    (ho : o < 7) (h1 : i1 < 7) (h2 : i2 < 7) (h12 : i1 ≠ i2) :
    (generate_currency_pair b o f i1 i2).1 ≠ (generate_currency_pair b o f i1 i2).2 := by
  cases b
  · simp only [generate_currency_pair, Bool.false_eq_true, if_false]
    exact nonEur_getD_inj i1 h1 i2 h2 h12
  · cases f
    · simp only [generate_currency_pair, if_true, Bool.false_eq_true, if_false]
      exact nonEur_ne_eur o ho
    · simp only [generate_currency_pair, if_true]
      exact fun h => nonEur_ne_eur o ho h.symm

/-! ### Claim theorems -/

/-- C10: every generated record contains a field `source` whose value is the
constant string `"fx_order"`, identical for all records. -/
theorem order_source_constant (today : ℤ) (d : OrderDraws) :
    (generate_order today d).source = "fx_order" := rfl

/-- C6: for every generated record, `valueDate` is strictly later than
`creationDate` and at most 365 days later; it equals `creationDate` plus the
offset drawn uniformly from 1..365. -/
theorem order_value_date_bounds (today : ℤ) (d : OrderDraws) (h : ValidDraws d) :
    (generate_order today d).creation_date < (generate_order today d).value_date ∧
    (generate_order today d).value_date ≤ (generate_order today d).creation_date + 365 ∧
    (generate_order today d).value_date =
      (generate_order today d).creation_date + d.valueOffset := by
  obtain ⟨-, -, -, -, -, -, -, -, -, -, -, -, -, -, -, hv1, hv365, -, -⟩ := h
  rw [order_creation_eq, order_value_eq]
  omega

/-- C5: for every generated record, `buyCurrency ≠ sellCurrency`: both
branches of the pair selector return a pair of distinct currency codes. -/
theorem order_buy_ne_sell (today : ℤ) (d : OrderDraws) (h : ValidDraws d) :
    (generate_order today d).buy_currency ≠ (generate_order today d).sell_currency := by
  obtain ⟨-, -, -, -, -, ho, h1, h2, h12, -⟩ := h
  rw [order_buyc_eq, order_sellc_eq]
  exact generate_currency_pair_ne d.eurBranch d.otherIdx d.eurFirst d.sampleIdx1 d.sampleIdx2
    ho h1 h2 h12

theorem generate_dates_exec (today : ℤ) (s : String) (a v e : ℕ) :
    (generate_dates today s a v e).2.1 =
      if s ∈ ["closed_to_trading", "completed"] then
        (if 0 < (a : ℤ) then some (today - a + e) else none)
      else none := by
  have key : min (a : ℤ) (today - (today - a)) = a := by
    rw [sub_sub_cancel, min_self]
  show (if s ∈ ["closed_to_trading", "completed"] then
      (if 0 < min (a : ℤ) (today - (today - a)) then some (today - (a : ℤ) + e) else none)
    else none) = _
  rw [key]

/-- C4: for every generated record whose status is `closed_to_trading` or
`completed` and whose drawn `daysAgo` is strictly positive, `executionDate`
is present and satisfies `creationDate ≤ executionDate ≤ today`. -/
theorem order_execution_present (today : ℤ) (d : OrderDraws) (h : ValidDraws d)
    (hstat : (generate_order today d).status = "closed_to_trading" ∨
      (generate_order today d).status = "completed")
    (hpos : 0 < d.daysAgo) :
    ∃ e, (generate_order today d).execution_date = some e ∧
      (generate_order today d).creation_date ≤ e ∧ e ≤ today := by
  obtain ⟨-, -, -, -, -, -, -, -, -, -, -, -, -, -, -, -, -, heo, -⟩ := h
  rw [order_execution_eq, generate_dates_exec, order_creation_eq]
  rw [order_status_eq] at hstat
  have hmem : STATUSES.getD d.statusIdx "" ∈ ["closed_to_trading", "completed"] := by
    rcases hstat with h | h <;> rw [h] <;> decide
  rw [if_pos hmem, if_pos (by exact_mod_cast hpos)]
  exact ⟨today - d.daysAgo + d.execOffset, rfl, by omega, by omega⟩

/-- C3 (amended): `executionDate` is present iff the status is
`closed_to_trading` or `completed` AND the drawn `daysAgo` is positive; when
present, `creationDate ≤ executionDate ≤ min(today, creationDate + daysAgo)`. -/
theorem order_execution_iff_amended (today : ℤ) (d : OrderDraws) (h : ValidDraws d) :
    ((generate_order today d).execution_date ≠ none ↔
      (((generate_order today d).status = "closed_to_trading" ∨
        (generate_order today d).status = "completed") ∧ 0 < d.daysAgo)) ∧
    (∀ e, (generate_order today d).execution_date = some e →
      (generate_order today d).creation_date ≤ e ∧
        e ≤ min today ((generate_order today d).creation_date + d.daysAgo)) := by
  obtain ⟨-, -, -, -, -, -, -, -, -, -, -, -, -, -, -, -, -, heo, -⟩ := h
  rw [order_execution_eq, generate_dates_exec, order_status_eq, order_creation_eq]
  constructor
  · constructor
    · intro hne
      by_cases hmem : STATUSES.getD d.statusIdx "" ∈ ["closed_to_trading", "completed"]
      · rw [if_pos hmem] at hne
        by_cases hpos : 0 < (d.daysAgo : ℤ)
        · exact ⟨by simpa using hmem, by exact_mod_cast hpos⟩
        · rw [if_neg hpos] at hne
          exact absurd rfl hne
      · rw [if_neg hmem] at hne
        exact absurd rfl hne
    · rintro ⟨hst, hpos⟩
      have hmem : STATUSES.getD d.statusIdx "" ∈ ["closed_to_trading", "completed"] := by
        rcases hst with h | h <;> rw [h] <;> decide
      rw [if_pos hmem, if_pos (by exact_mod_cast hpos)]
      simp
  · intro e he
    by_cases hmem : STATUSES.getD d.statusIdx "" ∈ ["closed_to_trading", "completed"]
    · rw [if_pos hmem] at he
      by_cases hpos : 0 < (d.daysAgo : ℤ)
      · rw [if_pos hpos] at he
        have he' : today - (d.daysAgo : ℤ) + d.execOffset = e := by
          injection he
        omega
      · rw [if_neg hpos] at he
        cases he
    · rw [if_neg hmem] at he
      cases he

theorem c3Draws_valid : ValidDraws c3Draws := by
  unfold ValidDraws
  refine ⟨?_, ?_, ?_, ?_, ?_, ?_, ?_, ?_, ?_, ?_, ?_, ?_, ?_, ?_, ?_, ?_, ?_, ?_, ?_⟩ <;>
    first
      | decide
      | norm_num [c3Draws]

/-- C3 counterexample: a valid record whose status is `"completed"` but whose
`executionDate` is absent (drawn `daysAgo = 0`), refuting the claimed
"present iff status ∈ {closed_to_trading, completed}". -/
theorem order_execution_iff_counterexample :
    ValidDraws c3Draws ∧ (generate_order 0 c3Draws).status = "completed" ∧
      (generate_order 0 c3Draws).execution_date = none := by
  refine ⟨c3Draws_valid, by decide, by decide⟩

theorem refAlphabet_getD_mem : ∀ i, i < 36 → REF_ALPHABET.getD i ' ' ∈ REF_ALPHABET := by
  decide

/-- C7: the reference is an 8-character suffix drawn from the uppercase
letters and digits, preceded by `"KCH-"` exactly when the order type is
`"chain"` and by `"K-"` otherwise; hence it starts with `"KCH-"` iff
`orderType = "chain"`. -/
theorem order_reference_spec (today : ℤ) (d : OrderDraws) (h : ValidDraws d) :
    (generate_order today d).reference =
      (if (generate_order today d).fx_order_type = "chain" then ['K', 'C', 'H', '-']
        else ['K', '-']) ++ d.refSuffix.map (fun i => REF_ALPHABET.getD i ' ') ∧
    (d.refSuffix.map (fun i => REF_ALPHABET.getD i ' ')).length = 8 ∧
    (∀ c ∈ d.refSuffix.map (fun i => REF_ALPHABET.getD i ' '), c ∈ REF_ALPHABET) ∧
    ((generate_order today d).reference.take 4 = ['K', 'C', 'H', '-'] ↔
      (generate_order today d).fx_order_type = "chain") := by
  obtain ⟨-, hlen, hmem, -⟩ := h
  have href : (generate_order today d).reference =
      generate_reference (FX_ORDER_TYPES.getD d.orderTypeIdx "")
        (d.refSuffix.map (fun i => REF_ALPHABET.getD i ' ')) := rfl
  have htyp : (generate_order today d).fx_order_type = FX_ORDER_TYPES.getD d.orderTypeIdx "" := rfl
  rw [href, htyp]
  refine ⟨?_, ?_, ?_, ?_⟩
  · unfold generate_reference
    split_ifs <;> rfl
  · rw [List.length_map, hlen]
  · intro c hc
    simp only [List.mem_map] at hc
    obtain ⟨i, hi, rfl⟩ := hc
    exact refAlphabet_getD_mem i (hmem i hi)
  · unfold generate_reference
    split_ifs with hch
    · refine ⟨fun _ => hch, fun _ => ?_⟩
      exact List.take_left ['K', 'C', 'H', '-'] (d.refSuffix.map (fun i => REF_ALPHABET.getD i ' '))
    · refine ⟨fun habs => ?_, fun habs => absurd habs hch⟩
      exfalso
      have habs' : 'K' :: '-' :: (d.refSuffix.map (fun i => REF_ALPHABET.getD i ' ')).take 2 =
          ['K', 'C', 'H', '-'] := habs
      injection habs' with h1 h2
      injection h2 with h3 h4
      exact absurd h3 (by decide)

theorem ratesGet_bounds (c : String) : 43/50 ≤ ratesGet c ∧ ratesGet c ≤ 162 := by
  unfold ratesGet EXCHANGE_RATES
  split_ifs <;> norm_num [Option.getD]

theorem ratesGet_pos (c : String) : 0 < ratesGet c :=
  lt_of_lt_of_le (by norm_num) (ratesGet_bounds c).1

theorem roundTo7_pos (x : ℚ) (hx : 1/1000 ≤ x) : 0 < roundTo7 x := by
  unfold roundTo7
  have h1 : (1 : ℤ) ≤ round (x * 10^7) := by
    rw [round_eq]
    apply Int.le_floor.mpr
    push_cast
    linarith
  have h2 : (0 : ℚ) < (round (x * 10^7) : ℚ) := by exact_mod_cast h1
  positivity

theorem generate_rate_pos (buy sell : String) (v : ℚ)
    (hlo : -(2/100) ≤ v) (hhi : v ≤ 2/100) : 0 < generate_rate buy sell v := by
  by_cases h : buy = sell
  · simp only [generate_rate, if_pos h]
    norm_num
  · simp only [generate_rate, if_neg h]
    apply roundTo7_pos
    have hs := ratesGet_bounds sell
    have hb := ratesGet_bounds buy
    have hbp := ratesGet_pos buy
    have hdiv : 43/8100 ≤ ratesGet sell / ratesGet buy := by
      rw [le_div_iff₀ hbp]
      nlinarith [hs.1, hb.2]
    have h1 : (0 : ℚ) ≤ 1 + v := by linarith
    have h2 : 43/8100 * (1 + v) ≤ (ratesGet sell / ratesGet buy) * (1 + v) :=
      mul_le_mul_of_nonneg_right hdiv h1
    have h3 : 43/8100 * (49/50) ≤ 43/8100 * (1 + v) := by nlinarith
    linarith

/-- C8: the rate synthesizer is total; it returns exactly 1 when
`buyCurrency = sellCurrency`, otherwise
`round(table[sell]/table[buy] * (1 + variation), 7)`; in all cases the
returned rate is positive (for any variation drawn from `[-0.02, 0.02]`). -/
theorem generate_rate_spec (buy sell : String) (v : ℚ)
    (hlo : -(2/100) ≤ v) (hhi : v ≤ 2/100) :
    (buy = sell → generate_rate buy sell v = 1) ∧
    (buy ≠ sell →
      generate_rate buy sell v = roundTo7 ((ratesGet sell / ratesGet buy) * (1 + v))) ∧
    0 < generate_rate buy sell v := by
  refine ⟨?_, ?_, generate_rate_pos buy sell v hlo hhi⟩
  · intro h
    simp only [generate_rate, if_pos h]
  · intro h
    simp only [generate_rate, if_neg h]

/-- C9: the currency-table lookup never fails: a code absent from
`EXCHANGE_RATES` defaults to rate 1.0, so the synthesizer is total over
arbitrary currency strings — for two unknown distinct codes the base rate is
`1/1` and the result is `round(1 * (1 + variation), 7)`. -/
theorem ratesGet_default_total :
    (∀ c, EXCHANGE_RATES c = none → ratesGet c = 1) ∧
    (∀ buy sell : String, ∀ v : ℚ, buy ≠ sell → EXCHANGE_RATES buy = none →
      EXCHANGE_RATES sell = none → generate_rate buy sell v = roundTo7 (1 * (1 + v))) := by
  constructor
  · intro c hc
    unfold ratesGet
    rw [hc]
    rfl
  · intro b s v hne hb hs
    simp only [generate_rate, if_neg hne]
    have h1 : ratesGet s / ratesGet b = 1 := by
      unfold ratesGet
      rw [hb, hs]
      norm_num
    rw [h1]

theorem floor_round_bounds (x : ℚ) : round x - 1 ≤ ⌊x⌋ ∧ ⌊x⌋ ≤ round x := by
  rw [round_eq]
  constructor
  · have h : ⌊x + 1/2⌋ ≤ ⌊x + 1⌋ := Int.floor_mono (by linarith)
    rw [Int.floor_add_one] at h
    linarith
  · exact Int.floor_mono (by linarith)

/-- C1 (amended): for every generated record, `sellAmountCents` is the
truncation `int(buyAmountCents * rate)` — the floor, both factors being
non-negative — which is within 1 unit below `round(buyAmountCents * rate)`. -/
theorem order_sell_amount_trunc (today : ℤ) (d : OrderDraws) (h : ValidDraws d) :
    (generate_order today d).sell_amount_cents =
      ⌊((generate_order today d).buy_amount_cents : ℚ) * (generate_order today d).rate⌋ ∧
    round (((generate_order today d).buy_amount_cents : ℚ) * (generate_order today d).rate) - 1 ≤
      (generate_order today d).sell_amount_cents ∧
    (generate_order today d).sell_amount_cents ≤
      round (((generate_order today d).buy_amount_cents : ℚ) * (generate_order today d).rate) := by
  obtain ⟨-, -, -, -, -, -, -, -, -, hlo, hhi, -⟩ := h
  have hrate : (generate_order today d).rate =
      generate_rate
        (generate_currency_pair d.eurBranch d.otherIdx d.eurFirst d.sampleIdx1 d.sampleIdx2).1
        (generate_currency_pair d.eurBranch d.otherIdx d.eurFirst d.sampleIdx1 d.sampleIdx2).2
        d.variation := rfl
  have hpos : 0 < (generate_order today d).rate := by
    rw [hrate]
    exact generate_rate_pos _ _ _ hlo hhi
  have hx : 0 ≤ ((generate_order today d).buy_amount_cents : ℚ) * (generate_order today d).rate :=
    mul_nonneg (Nat.cast_nonneg _) hpos.le
  have h1 : (generate_order today d).sell_amount_cents =
      ⌊((generate_order today d).buy_amount_cents : ℚ) * (generate_order today d).rate⌋ := by
    have hsell : (generate_order today d).sell_amount_cents =
        pyTrunc (((generate_order today d).buy_amount_cents : ℚ) *
          (generate_order today d).rate) := rfl
    rw [hsell]
    unfold pyTrunc
    rw [if_pos hx]
  have h2 := floor_round_bounds
    (((generate_order today d).buy_amount_cents : ℚ) * (generate_order today d).rate)
  exact ⟨h1, by rw [h1]; exact h2.1, by rw [h1]; exact h2.2⟩

theorem c1Draws_valid : ValidDraws c1Draws := by
  unfold ValidDraws
  refine ⟨?_, ?_, ?_, ?_, ?_, ?_, ?_, ?_, ?_, ?_, ?_, ?_, ?_, ?_, ?_, ?_, ?_, ?_, ?_⟩ <;>
    first
      | decide
      | norm_num [c1Draws]

theorem c2Draws_valid : ValidDraws c2Draws := by
  unfold ValidDraws
  refine ⟨?_, ?_, ?_, ?_, ?_, ?_, ?_, ?_, ?_, ?_, ?_, ?_, ?_, ?_, ?_, ?_, ?_, ?_, ?_⟩ <;>
    first
      | decide
      | norm_num [c2Draws]

theorem wDraws_valid : ValidDraws wDraws := by
  unfold ValidDraws
  refine ⟨?_, ?_, ?_, ?_, ?_, ?_, ?_, ?_, ?_, ?_, ?_, ?_, ?_, ?_, ?_, ?_, ?_, ?_, ?_⟩ <;>
    first
      | decide
      | norm_num [wDraws]

/-- C1 counterexample: a valid record (buy USD, sell EUR, zero variation,
amount draw 10007) for which `sellAmountCents ≠ round(buyAmountCents * rate)`:
the product is `953047.6667`, the code truncates to `953047` while rounding
gives `953048`. -/
theorem order_sell_amount_counterexample :
    ValidDraws c1Draws ∧
      (generate_order 0 c1Draws).sell_amount_cents ≠
        round (((generate_order 0 c1Draws).buy_amount_cents : ℚ) *
          (generate_order 0 c1Draws).rate) := by
  refine ⟨c1Draws_valid, ?_⟩
  have hb : (generate_order 0 c1Draws).buy_amount_cents = 1000700 := by decide
  have hr : (generate_order 0 c1Draws).rate = generate_rate "USD" "EUR" 0 := rfl
  have hs : (generate_order 0 c1Draws).sell_amount_cents =
      pyTrunc (((1000700 : ℕ) : ℚ) * generate_rate "USD" "EUR" 0) := rfl
  have hrate : generate_rate "USD" "EUR" 0 = 952381/1000000 := by
    have hne : ("USD" : String) ≠ "EUR" := by decide
    simp only [generate_rate, if_neg hne]
    have h1 : ratesGet "EUR" = 1 := rfl
    have h2 : ratesGet "USD" = 105/100 := rfl
    rw [h1, h2]
    have h3 : (1 : ℚ) / (105/100) * (1 + 0) = 20/21 := by norm_num
    rw [h3]
    unfold roundTo7
    have h4 : (20/21 : ℚ) * 10^7 = 200000000/21 := by norm_num
    rw [h4]
    have h5 : round ((200000000 : ℚ)/21) = 9523810 := by
      rw [round_eq]
      have h6 : (200000000 : ℚ)/21 + 1/2 = 400000021/42 := by norm_num
      rw [h6, Int.floor_eq_iff]
      norm_num
    rw [h5]
    norm_num
  rw [hs, hb, hr, hrate]
  have hprod : ((1000700 : ℕ) : ℚ) * (952381/1000000) = 9530476667/10000 := by
    push_cast
    norm_num
  rw [hprod]
  have hl : pyTrunc ((9530476667 : ℚ)/10000) = 953047 := by
    unfold pyTrunc
    rw [if_pos (by norm_num), Int.floor_eq_iff]
    norm_num
  have hrnd : round ((9530476667 : ℚ)/10000) = 953048 := by
    rw [round_eq]
    have h7 : (9530476667 : ℚ)/10000 + 1/2 = 9530481667/10000 := by norm_num
    rw [h7, Int.floor_eq_iff]
    norm_num
  rw [hl, hrnd]
  decide

/-- C2 (code-bug evaluation): the small-tier `randint` bounds in the code are
`[10000, 5000000]` (`randint(100_00, 50_000_00)`), i.e. 100.00–50,000.00 in
minor units already; the extra `* 100` yields `buyAmountCents = 500,000,000`
at the maximal small-tier draw, far outside the claimed small-tier range
`[10000, 5000000]`. -/
theorem amount_small_tier_bug :
    ValidDraws c2Draws ∧
    AMOUNT_TIERS.getD c2Draws.tierIdx "" = "small" ∧
    amountDrawRange "small" = (10000, 5000000) ∧
    (generate_order 0 c2Draws).buy_amount_cents = 500000000 ∧
    ¬ ((generate_order 0 c2Draws).buy_amount_cents ≤ 5000000) := by
  exact ⟨c2Draws_valid, by decide, by decide, by decide, by decide⟩

theorem var_lo_le_zero : -(2/100 : ℚ) ≤ 0 := by norm_num

theorem zero_le_var_hi : (0 : ℚ) ≤ 2/100 := by norm_num

theorem order_sell_amount_trunc_witness :
    ValidDraws wDraws ∧
      ((generate_order 100 wDraws).sell_amount_cents =
        ⌊((generate_order 100 wDraws).buy_amount_cents : ℚ) * (generate_order 100 wDraws).rate⌋ ∧
      round (((generate_order 100 wDraws).buy_amount_cents : ℚ) *
          (generate_order 100 wDraws).rate) - 1 ≤
        (generate_order 100 wDraws).sell_amount_cents ∧
      (generate_order 100 wDraws).sell_amount_cents ≤
        round (((generate_order 100 wDraws).buy_amount_cents : ℚ) *
          (generate_order 100 wDraws).rate)) :=
  ⟨wDraws_valid, order_sell_amount_trunc 100 wDraws wDraws_valid⟩

theorem order_execution_iff_amended_witness :
    ValidDraws wDraws ∧
      (((generate_order 100 wDraws).execution_date ≠ none ↔
        (((generate_order 100 wDraws).status = "closed_to_trading" ∨
          (generate_order 100 wDraws).status = "completed") ∧ 0 < wDraws.daysAgo)) ∧
      (∀ e, (generate_order 100 wDraws).execution_date = some e →
        (generate_order 100 wDraws).creation_date ≤ e ∧
          e ≤ min 100 ((generate_order 100 wDraws).creation_date + wDraws.daysAgo))) :=
  ⟨wDraws_valid, order_execution_iff_amended 100 wDraws wDraws_valid⟩

theorem order_execution_present_witness :
    ValidDraws wDraws ∧ (generate_order 100 wDraws).status = "closed_to_trading" ∧
      0 < wDraws.daysAgo ∧
      (∃ e, (generate_order 100 wDraws).execution_date = some e ∧
        (generate_order 100 wDraws).creation_date ≤ e ∧ e ≤ 100) :=
  ⟨wDraws_valid, by decide, by decide,
    order_execution_present 100 wDraws wDraws_valid (Or.inl (by decide)) (by decide)⟩

theorem order_buy_ne_sell_witness :
    ValidDraws wDraws ∧
      (generate_order 100 wDraws).buy_currency ≠ (generate_order 100 wDraws).sell_currency :=
  ⟨wDraws_valid, order_buy_ne_sell 100 wDraws wDraws_valid⟩

theorem order_value_date_bounds_witness :
    ValidDraws wDraws ∧
      ((generate_order 100 wDraws).creation_date < (generate_order 100 wDraws).value_date ∧
      (generate_order 100 wDraws).value_date ≤ (generate_order 100 wDraws).creation_date + 365 ∧
      (generate_order 100 wDraws).value_date =
        (generate_order 100 wDraws).creation_date + wDraws.valueOffset) :=
  ⟨wDraws_valid, order_value_date_bounds 100 wDraws wDraws_valid⟩

theorem order_reference_spec_witness :
    ValidDraws wDraws ∧
      ((generate_order 100 wDraws).reference =
        (if (generate_order 100 wDraws).fx_order_type = "chain" then ['K', 'C', 'H', '-']
          else ['K', '-']) ++ wDraws.refSuffix.map (fun i => REF_ALPHABET.getD i ' ') ∧
      (wDraws.refSuffix.map (fun i => REF_ALPHABET.getD i ' ')).length = 8 ∧
      (∀ c ∈ wDraws.refSuffix.map (fun i => REF_ALPHABET.getD i ' '), c ∈ REF_ALPHABET) ∧
      ((generate_order 100 wDraws).reference.take 4 = ['K', 'C', 'H', '-'] ↔
        (generate_order 100 wDraws).fx_order_type = "chain")) :=
  ⟨wDraws_valid, order_reference_spec 100 wDraws wDraws_valid⟩

theorem generate_rate_spec_witness :
    -(2/100 : ℚ) ≤ 0 ∧ (0 : ℚ) ≤ 2/100 ∧
      (("EUR" = "USD" → generate_rate "EUR" "USD" 0 = 1) ∧
      ("EUR" ≠ "USD" →
        generate_rate "EUR" "USD" 0 =
          roundTo7 ((ratesGet "USD" / ratesGet "EUR") * (1 + 0))) ∧
      0 < generate_rate "EUR" "USD" 0) :=
  ⟨var_lo_le_zero, zero_le_var_hi,
    generate_rate_spec "EUR" "USD" 0 var_lo_le_zero zero_le_var_hi⟩

theorem ratesGet_default_total_witness :
    EXCHANGE_RATES "XXX" = none ∧ ratesGet "XXX" = 1 ∧
      generate_rate "AAA" "BBB" 0 = roundTo7 (1 * (1 + 0)) :=
  ⟨rfl, ratesGet_default_total.1 "XXX" rfl,
    ratesGet_default_total.2 "AAA" "BBB" 0 (by decide) rfl rfl⟩
